import Mathlib

set_option linter.unusedVariables false
set_option linter.unnecessarySeqFocus false
set_option linter.unusedTactic false
set_option linter.unreachableTactic false

/-!
Verification development for the HireBot interview-analysis backend
(`hirebot-backend/index.js`).  The definitions below are a shallow
embedding of the backend's AI gateway (`callGeminiAPI`), its fallback
generators, the per-session data model, and the Express route handlers
that form the stage workflow.  Theorems at the end settle the frozen
specification claims against this embedding.
-/

namespace HireBot

/-- Character-list test used to model JavaScript `String.prototype.startsWith`
on the underlying character sequence. -/
def startsWithChars : List Char → List Char → Bool
  | _, [] => true
  | [], _ :: _ => false
  | a :: as, b :: bs => a == b && startsWithChars as bs

/-- Character-list substring occurrence test. -/
def includesChars : List Char → List Char → Bool
  | [], pat => pat.isEmpty
  | a :: as, pat => startsWithChars (a :: as) pat || includesChars as pat

/-- Models JavaScript `s.includes(pat)` (substring containment). -/
def strIncludes (s pat : String) : Bool :=
  includesChars s.data pat.data

/-! ### AI Gateway (`callGeminiAPI`, index.js lines 74-187) -/

/-- Outcome of one network attempt against the provider, as seen by the
`try` block of `callGeminiAPI`: a successful response carrying generated
text, a well-formed response without content (`response.data.candidates`
missing, line 140), or an axios error carrying the provider error `code`
and resolved error message (`error.response?.data?.error?.code` /
`error.response?.data?.error?.message || error.message`, lines 146-147). -/
inductive ApiOutcome where
  | success (text : String)
  | noContent
  | httpError (code : Option Nat) (msg : String)
deriving DecidableEq, Repr

/-- Terminal errors thrown by `callGeminiAPI` (lines 160, 171, 176, 180). -/
inductive GErr where
  | overloaded
  | rateLimited
  | invalidRequest (msg : String)
  | failedAfterRetries (msg : String)
deriving DecidableEq, Repr

/-- The `message` property of the `Error` object thrown by `callGeminiAPI`:
`new Error('OVERLOADED')`, `new Error('RATE_LIMITED')`,
`new Error(\x60INVALID_REQUEST: ...\x60)`, `new Error(\x60FAILED_AFTER_RETRIES: ...\x60)`. -/
def GErr.message : GErr → String
  | .overloaded => "OVERLOADED"
  | .rateLimited => "RATE_LIMITED"
  | .invalidRequest m => "INVALID_REQUEST: " ++ m
  | .failedAfterRetries m => "FAILED_AFTER_RETRIES: " ++ m

/-- Result of a whole `callGeminiAPI` invocation.  `noResult` is the
JavaScript `undefined` produced when the `for` loop body never runs
(only possible with a zero attempt budget). -/
inductive CallResult where
  | ok (text : String)
  | err (e : GErr)
  | noResult
deriving DecidableEq, Repr

/-- Observable trace of one `callGeminiAPI` invocation: its result, how many
network attempts (axios posts) were performed, and the list of backoff
delays awaited between attempts, in order, in milliseconds. -/
structure GatewayTrace where
  result : CallResult
  networkCalls : Nat
  delays : List Nat
deriving DecidableEq, Repr

/-- Message of the local throw for oversized inline attachments (line 117). -/
def oversizeMsg : String :=
  "File too large for processing. Please use a smaller file (< 20MB)."

/-- Message of the local throw for a contentless provider response (line 140). -/
def invalidFormatMsg : String :=
  "Invalid response format from Gemini API"

/-- One iteration of the `try` block of `callGeminiAPI`: the attachment size
check (lines 111-118, `Buffer.byteLength(data, 'base64') / (1024*1024) > 20`,
which for exact arithmetic is `bytes > 20 * 1024 * 1024`) runs before the
network call, so an oversized attachment throws locally with zero network
attempts; otherwise the network attempt's outcome decides.  The second
component counts network calls made by this iteration.  Errors are the
pair (errorCode, errorMessage) the catch block extracts. -/
def attemptRun (env : Nat → ApiOutcome) (oversize : Bool) (attempt : Nat) :
    Except (Option Nat × String) String × Nat :=
  if oversize then (Except.error (none, oversizeMsg), 0)
  else
    match env attempt with
    | .success t => (Except.ok t, 1)
    | .noContent => (Except.error (none, invalidFormatMsg), 1)
    | .httpError c m => (Except.error (c, m), 1)

/-- The escalating fixed backoff schedule for overloaded responses
(`const waitTimes = [30000, 120000, 300000]`, line 154). -/
def overloadedWaitTimes : List Nat := [30000, 120000, 300000]

/-- The retry loop of `callGeminiAPI` (lines 77-186).  `attempt` is the
1-based loop counter and the `fuel` argument is a structural bound on the
remaining iterations (the caller supplies `retries`, which the loop never
exceeds, so the fuel is never exhausted while `attempt ≤ retries`).
Classification in the catch block (lines 150-184):
`errorCode === 503 || errorMessage.includes('overloaded')` retries on the
fixed escalating schedule and ends in `OVERLOADED`; `errorCode === 429`
waits `30000 * attempt` and ends in `RATE_LIMITED`; `errorCode === 400`
throws `INVALID_REQUEST` immediately; anything else waits `5000 * attempt`
and ends in `FAILED_AFTER_RETRIES` on the last attempt. -/
def runGateway (env : Nat → ApiOutcome) (oversize : Bool) (retries attempt fuel : Nat) :
    GatewayTrace :=
  match fuel with
  | 0 => ⟨.noResult, 0, []⟩
  | fuel + 1 =>
    if attempt > retries then ⟨.noResult, 0, []⟩
    else
      match attemptRun env oversize attempt with
      | (Except.ok t, net) => ⟨.ok t, net, []⟩
      | (Except.error (code, msg), net) =>
        if (code == some 503) || strIncludes msg ("overloaded") then
          if attempt < retries then
            let waitTime := overloadedWaitTimes.getD (attempt - 1) 300000
            let rest := runGateway env oversize retries (attempt + 1) fuel
            ⟨rest.result, net + rest.networkCalls, waitTime :: rest.delays⟩
          else ⟨.err .overloaded, net, []⟩
        else if code == some 429 then
          if attempt < retries then
            let rest := runGateway env oversize retries (attempt + 1) fuel
            ⟨rest.result, net + rest.networkCalls, (30000 * attempt) :: rest.delays⟩
          else ⟨.err .rateLimited, net, []⟩
        else if code == some 400 then
          ⟨.err (.invalidRequest msg), net, []⟩
        else if attempt == retries then
          ⟨.err (.failedAfterRetries msg), net, []⟩
        else
          let rest := runGateway env oversize retries (attempt + 1) fuel
          ⟨rest.result, net + rest.networkCalls, (5000 * attempt) :: rest.delays⟩

/-- `callGeminiAPI(prompt, fileData, retries)`: the prompt text does not
influence control flow and is elided; `fileData` is abstracted to the
decoded byte length of its base64 payload (`none` when no attachment is
passed).  The loop starts at attempt 1 with fuel `retries`. -/
def callGeminiAPI (env : Nat → ApiOutcome) (fileData : Option Nat) (retries : Nat) :
    GatewayTrace :=
  let oversize :=
    match fileData with
    | some bytes => decide (bytes > 20 * 1024 * 1024)
    | none => false
  runGateway env oversize retries 1 retries

/-! ### Data model (session objects, index.js lines 336-392) -/

/-- An uploaded file as the routes observe it: its (base)name and its byte
size on disk (`fs.stat(path).size` / multer's `file.size`). -/
structure FileRef where
  name : String
  size : Nat
deriving DecidableEq, Repr

/-- `session.mediaType` (line 386): `videoFile ? 'video' : 'audio'`. -/
inductive MediaType where
  | audio
  | video
deriving DecidableEq, Repr

/-- The string form used when interpolating `session.mediaType`. -/
def MediaType.str : MediaType → String
  | .audio => "audio"
  | .video => "video"

/-- `session.results`: one optional entry per stage key.  `none` models an
absent key; JavaScript truthiness checks (`!session.results.x`) treat the
two identically for the string values stored here. -/
structure Results where
  cvAnalysis : Option String
  transcription : Option String
  faceAnalysis : Option String
  technicalAnalysis : Option String
  communicationAnalysis : Option String
  finalReport : Option String
deriving DecidableEq, Repr

/-- The empty `results: {}` object of a fresh session (line 389). -/
def Results.empty : Results := ⟨none, none, none, none, none, none⟩

/-- The six stage keys of `session.results`. -/
inductive StageKey where
  | cvAnalysis
  | transcription
  | faceAnalysis
  | technicalAnalysis
  | communicationAnalysis
  | finalReport
deriving DecidableEq, Repr

/-- Read a `results` entry by key. -/
def Results.get (r : Results) : StageKey → Option String
  | .cvAnalysis => r.cvAnalysis
  | .transcription => r.transcription
  | .faceAnalysis => r.faceAnalysis
  | .technicalAnalysis => r.technicalAnalysis
  | .communicationAnalysis => r.communicationAnalysis
  | .finalReport => r.finalReport

/-- Write (or with `none`, delete) a `results` entry by key. -/
def Results.set (r : Results) : StageKey → Option String → Results
  | .cvAnalysis, v => { r with cvAnalysis := v }
  | .transcription, v => { r with transcription := v }
  | .faceAnalysis, v => { r with faceAnalysis := v }
  | .technicalAnalysis, v => { r with technicalAnalysis := v }
  | .communicationAnalysis, v => { r with communicationAnalysis := v }
  | .finalReport, v => { r with finalReport := v }

/-- An analysis session (`sessionData`, lines 380-390).  The opaque session
id and timestamps do not influence any modeled behavior and are elided;
file paths are abstracted to the `FileRef` the handlers derive from them
(`path.basename` for names, `fs.stat().size` / multer sizes for sizes). -/
structure Session where
  audioFile : Option FileRef
  videoFile : Option FileRef
  cvFile : FileRef
  jobDescription : String
  mediaType : MediaType
  status : String
  results : Results
deriving DecidableEq, Repr

/-- `session.videoPath || session.audioPath` (line 524). -/
def Session.mediaFile (s : Session) : Option FileRef :=
  match s.videoFile with
  | some v => some v
  | none => s.audioFile

/-! ### Fallback Generator (index.js lines 226-334) -/

/-- `generateFallbackTranscription(fileName, mediaType, jobDescription)`
(lines 226-265); the `jobDescription` parameter is unused by the source. -/
def generateFallbackTranscription (fileName : String) (mediaType : MediaType)
    (jobDescription : String) : String :=
  "\n# " ++ mediaType.str.toUpper ++ " TRANSCRIPTION - FALLBACK MODE\n\n**Note**: This is a fallback response generated because the AI service is currently overloaded. A placeholder transcription has been created to allow you to continue with the analysis workflow.\n\n## Interview Recording Analysis Status\n- **File**: "
    ++ fileName
    ++ "\n- **Type**: " ++ mediaType.str.toUpper ++ " file\n- **Status**: Pending AI processing\n- **Reason**: AI service temporarily unavailable\n\n## Next Steps\n1. You can continue with the technical analysis using your CV and job description\n2. Retry the "
    ++ mediaType.str
    ++ " transcription later when the service is available\n3. Upload a smaller "
    ++ mediaType.str
    ++ " file if the current one is large\n\n## Placeholder Analysis Structure\n\n### Speaker Identification\n- **Interviewer**: [To be identified when AI service is available]\n- **Candidate**: [To be identified when AI service is available]\n\n### Key Discussion Points\n- Technical competency assessment\n- Experience and background discussion\n- Problem-solving approach\n- Cultural fit evaluation\n\n### Interview Summary\nThis "
    ++ mediaType.str
    ++ " recording will be analyzed for:\n- Communication clarity and style\n- Technical knowledge demonstration\n- Response quality and depth\n- Overall interview performance\n"
    ++ (if mediaType = .video then "- Facial expressions and body language\n- Visual engagement and confidence" else "")
    ++ "\n\n**To get the actual transcription"
    ++ (if mediaType = .video then " and face analysis" else "")
    ++ ", please retry this step when the AI service is available.**\n  "

/-- `generateFallbackFaceAnalysis(fileName, jobDescription)` (lines 268-298);
the `jobDescription` parameter is unused by the source. -/
def generateFallbackFaceAnalysis (fileName : String) (jobDescription : String) : String :=
  "\n# FACE ANALYSIS - FALLBACK MODE\n\n**Note**: This is a fallback response generated because the AI service is currently overloaded. A placeholder face analysis has been created to allow you to continue with the analysis workflow.\n\n## Video Face Analysis Status\n- **File**: "
    ++ fileName
    ++ "\n- **Status**: Pending AI processing\n- **Reason**: AI service temporarily unavailable\n\n## Placeholder Analysis Structure\n\n### Facial Expression Analysis\n- **Confidence Indicators**: [To be analyzed when AI service is available]\n- **Engagement Level**: [To be analyzed when AI service is available]\n- **Emotional State**: [To be analyzed when AI service is available]\n\n### Non-Verbal Communication\n- **Eye Contact**: [To be analyzed when AI service is available]\n- **Facial Gestures**: [To be analyzed when AI service is available]\n- **Overall Demeanor**: [To be analyzed when AI service is available]\n\n### Professional Presence\n- **Visual Confidence**: [To be analyzed when AI service is available]\n- **Attentiveness**: [To be analyzed when AI service is available]\n- **Communication Style**: [To be analyzed when AI service is available]\n\n**To get the actual face analysis, please retry this step when the AI service is available.**\n  "

/-- `generateFallbackCVAnalysis(fileName, jobDescription)` (lines 301-334). -/
def generateFallbackCVAnalysis (fileName : String) (jobDescription : String) : String :=
  "\n# CV ANALYSIS - FALLBACK MODE\n\n**Note**: This is a fallback response generated because the AI service is currently overloaded. A placeholder analysis has been created to allow you to continue with the workflow.\n\n## CV Analysis Status\n- **File**: "
    ++ fileName
    ++ "\n- **Status**: Pending AI processing\n- **Job Role**: "
    ++ jobDescription.take 100
    ++ "...\n\n## Placeholder Structure\n\n### Personal Information\n- Name: [To be extracted from CV]\n- Contact: [To be extracted from CV]\n- Title: [To be extracted from CV]\n\n### Key Areas to Analyze\n1. **Technical Skills**: Programming languages, frameworks, tools\n2. **Experience**: Previous roles and responsibilities\n3. **Education**: Degrees, certifications, training\n4. **Projects**: Notable work and achievements\n5. **Career Growth**: Progression and development\n\n### Analysis Framework\n- Skills alignment with job requirements\n- Experience relevance assessment\n- Growth potential evaluation\n- Cultural fit indicators\n\n**To get the detailed CV analysis, please retry this step when the AI service is available.**\n  "

/-! ### Route handlers (Workflow Controller)

Each handler is modeled for an existing session (the `analysisSessions.get`
miss returns 404 without touching any state and is outside every claim).
Handlers that invoke the AI Gateway are parameterized by the outcome
`gw : Except GErr String` of that `callGeminiAPI` call — with a positive
attempt budget the gateway either returns text or throws a `GErr` (see
`runGateway_ne_noResult` below).  Prompt construction (pure string
building passed to the gateway) does not influence the modeled state and
is elided.  File reads (`fileToBase64`) are assumed to succeed; their
failure path is not the subject of any claim. -/

/-- What a handler sends back: a success JSON (carrying the produced stage
payload) or an error JSON with its HTTP status, `error` message and — where
the source includes them — the `availableSteps` and `missing` arrays. -/
inductive ApiResponse where
  | success (payload : String)
  | failure (httpStatus : Nat) (errorMsg : String) (availableSteps : List String)
      (missing : List String)
deriving DecidableEq, Repr

/-- `true` exactly for success responses. -/
def ApiResponse.isSuccess : ApiResponse → Bool
  | .success _ => true
  | .failure _ _ _ _ => false

/-- Observable effect of one handler invocation: the HTTP response, the
session state it leaves behind, and how many AI Gateway invocations
(`callGeminiAPI` calls) it performed. -/
structure RouteOut where
  response : ApiResponse
  session : Session
  gwCalls : Nat
deriving DecidableEq, Repr

/-- Result of `POST /api/initialize`: the response, the created session if
any, and the gateway invocation count (the handler never calls the
gateway). -/
structure InitOut where
  response : ApiResponse
  session : Option Session
  gwCalls : Nat
deriving DecidableEq, Repr

/-- `POST /api/initialize` (lines 340-414): requires (audio or video), a CV
and a non-empty job description; rejects a video larger than 10 MB
(`videoFile.size / (1024*1024) > 10`, exactly `size > 10 * 1024 * 1024`);
otherwise creates a session with `status: 'initialized'`, empty results,
and `mediaType` video exactly when a video file was supplied. -/
def initializeRoute (audioFile videoFile cvFile : Option FileRef)
    (jobDescription : String) : InitOut :=
  match cvFile with
  | none =>
    ⟨.failure 400 ("Missing required fields: (audio OR video), cv, and jobDescription are required") [] [], none, 0⟩
  | some cv =>
    if (audioFile.isNone && videoFile.isNone) || jobDescription == "" then
      ⟨.failure 400 ("Missing required fields: (audio OR video), cv, and jobDescription are required") [] [], none, 0⟩
    else
      let created : InitOut :=
        ⟨.success ("Analysis session initialized successfully"),
          some { audioFile := audioFile, videoFile := videoFile, cvFile := cv,
                 jobDescription := jobDescription,
                 mediaType := if videoFile.isSome then .video else .audio,
                 status := "initialized", results := Results.empty }, 0⟩
      match videoFile with
      | some vf =>
        if vf.size > 10 * 1024 * 1024 then
          ⟨.failure 400 ("Video file too large") [] [], none, 0⟩
        else created
      | none => created

/-- `POST /api/analyze-cv/:sessionId` (lines 417-509).  Status is first set
to `analyzing_cv`; on gateway success the result is stored and status
becomes `cv_analyzed`; a caught error whose message includes `OVERLOADED`
or `503` stores the fallback CV analysis under status
`cv_analyzed_fallback`; any other error sets status `error` and returns
500 with no result written. -/
def analyzeCv (s : Session) (gw : Except GErr String) : RouteOut :=
  let s1 : Session := { s with status := "analyzing_cv" }
  match gw with
  | Except.ok text =>
    ⟨.success text,
      { s1 with results := { s1.results with cvAnalysis := some text },
                status := "cv_analyzed" }, 1⟩
  | Except.error e =>
    if strIncludes e.message ("OVERLOADED") || strIncludes e.message ("503") then
      let fb := generateFallbackCVAnalysis s.cvFile.name s.jobDescription
      ⟨.success fb,
        { s1 with results := { s1.results with cvAnalysis := some fb },
                  status := "cv_analyzed_fallback" }, 1⟩
    else
      ⟨.failure 500 ("Failed to analyze CV") [] [], { s1 with status := "error" }, 1⟩

/-- `POST /api/transcribe-media/:sessionId` (lines 512-672).  Status is set
to `transcribing_media`; missing media is a 400; a media file above the
upload cap (25 MB audio / 10 MB video) is rejected with status `error`
before the inner try; inside the try a stricter processing cap
(20 MB audio / 8 MB video) throws locally before the gateway call;
the catch recovers `OVERLOADED`/`503` messages via the fallback
transcription (status `{media}_transcribed_fallback`), and otherwise sets
status `error` and answers 429 / 400 / 500 by message.  On success the
transcription is stored under status `{media}_transcribed`. -/
def transcribeMedia (s : Session) (gw : Except GErr String) : RouteOut :=
  let s1 : Session := { s with status := "transcribing_media" }
  match s.mediaFile with
  | none => ⟨.failure 400 ("No media file found for transcription") [] [], s1, 0⟩
  | some mf =>
    let maxSize : Nat := if s.mediaType = .audio then 25 else 10
    if mf.size > maxSize * 1024 * 1024 then
      ⟨.failure 400 (s.mediaType.str ++ " file too large for processing") [] [],
        { s1 with status := "error" }, 0⟩
    else
      let processingSizeLimit : Nat := if s.mediaType = .audio then 20 else 8
      let inner : Except String String × Nat :=
        if mf.size > processingSizeLimit * 1024 * 1024 then
          (Except.error ("File too large for current API conditions (" ++ toString processingSizeLimit ++ "MB limit)"), 0)
        else
          match gw with
          | Except.ok t => (Except.ok t, 1)
          | Except.error e => (Except.error e.message, 1)
      match inner with
      | (Except.ok t, net) =>
        ⟨.success t,
          { s1 with results := { s1.results with transcription := some t },
                    status := s.mediaType.str ++ "_transcribed" }, net⟩
      | (Except.error msg, net) =>
        if strIncludes msg ("OVERLOADED") || strIncludes msg ("503") then
          let fb := generateFallbackTranscription mf.name s.mediaType s.jobDescription
          ⟨.success fb,
            { s1 with results := { s1.results with transcription := some fb },
                      status := s.mediaType.str ++ "_transcribed_fallback" }, net⟩
        else if strIncludes msg ("RATE_LIMITED") then
          ⟨.failure 429 ("Rate limit exceeded") [] [], { s1 with status := "error" }, net⟩
        else if strIncludes msg ("File too large") then
          ⟨.failure 400 ("File too large for current conditions") [] [],
            { s1 with status := "error" }, net⟩
        else
          ⟨.failure 500 ("Failed to transcribe " ++ s.mediaType.str) [] [],
            { s1 with status := "error" }, net⟩

/-- `POST /api/face-analysis/:sessionId` (lines 675-840).  Sessions without
`mediaType === 'video'` or without a video path are rejected up front with
no state change; then status becomes `analyzing_face`; a video above 10 MB
is rejected with status `error`; inside the try a video above 8 MB throws
locally before the gateway call; the catch mirrors the transcription
handler with the face-analysis fallback and statuses
`face_analyzed` / `face_analyzed_fallback`. -/
def faceAnalysisRoute (s : Session) (gw : Except GErr String) : RouteOut :=
  match s.videoFile with
  | none => ⟨.failure 400 ("Face analysis only available for video files") [] [], s, 0⟩
  | some vf =>
    if s.mediaType = .video then
      let s1 : Session := { s with status := "analyzing_face" }
      if vf.size > 10 * 1024 * 1024 then
        ⟨.failure 400 ("Video file too large for face analysis") [] [],
          { s1 with status := "error" }, 0⟩
      else
        let inner : Except String String × Nat :=
          if vf.size > 8 * 1024 * 1024 then
            (Except.error ("File too large for face analysis processing (8MB limit)"), 0)
          else
            match gw with
            | Except.ok t => (Except.ok t, 1)
            | Except.error e => (Except.error e.message, 1)
        match inner with
        | (Except.ok t, net) =>
          ⟨.success t,
            { s1 with results := { s1.results with faceAnalysis := some t },
                      status := "face_analyzed" }, net⟩
        | (Except.error msg, net) =>
          if strIncludes msg ("OVERLOADED") || strIncludes msg ("503") then
            let fb := generateFallbackFaceAnalysis vf.name s.jobDescription
            ⟨.success fb,
              { s1 with results := { s1.results with faceAnalysis := some fb },
                        status := "face_analyzed_fallback" }, net⟩
          else if strIncludes msg ("RATE_LIMITED") then
            ⟨.failure 429 ("Rate limit exceeded") [] [], { s1 with status := "error" }, net⟩
          else if strIncludes msg ("File too large") then
            ⟨.failure 400 ("File too large for face analysis") [] [],
              { s1 with status := "error" }, net⟩
          else
            ⟨.failure 500 ("Failed to analyze face") [] [], { s1 with status := "error" }, net⟩
    else ⟨.failure 400 ("Face analysis only available for video files") [] [], s, 0⟩

/-- `POST /api/fallback/:sessionId/:step` (lines 843-915).  The three
recognized steps store the corresponding fallback content under the
`_fallback` completed status; `face_analysis` is additionally guarded by
`mediaType === 'video'`.  A missing media file makes `path.basename`
throw, which the handler's catch turns into a 500 with no state change.
Any other step name answers 400 listing the available steps and changes
nothing. -/
def forceFallbackRoute (s : Session) (step : String) : RouteOut :=
  if step = "cv_analysis" then
    let r := generateFallbackCVAnalysis s.cvFile.name s.jobDescription
    ⟨.success r,
      { s with results := { s.results with cvAnalysis := some r },
               status := "cv_analyzed_fallback" }, 0⟩
  else if step = "transcription" then
    match s.mediaFile with
    | none => ⟨.failure 500 ("Failed to generate fallback response") [] [], s, 0⟩
    | some mf =>
      let r := generateFallbackTranscription mf.name s.mediaType s.jobDescription
      ⟨.success r,
        { s with results := { s.results with transcription := some r },
                 status := s.mediaType.str ++ "_transcribed_fallback" }, 0⟩
  else if step = "face_analysis" then
    if s.mediaType = .video then
      match s.videoFile with
      | none => ⟨.failure 500 ("Failed to generate fallback response") [] [], s, 0⟩
      | some vf =>
        let r := generateFallbackFaceAnalysis vf.name s.jobDescription
        ⟨.success r,
          { s with results := { s.results with faceAnalysis := some r },
                   status := "face_analyzed_fallback" }, 0⟩
    else ⟨.failure 400 ("Face analysis not available") [] [], s, 0⟩
  else
    ⟨.failure 400 ("Fallback not available for this step")
      ["cv_analysis", "transcription", "face_analysis"] [], s, 0⟩

/-- `POST /api/technical-analysis/:sessionId` (lines 918-1008).  Missing
transcription or CV analysis is rejected with no state change; otherwise
status becomes `analyzing_technical` and the gateway is called; success
stores the result under status `technical_analyzed`; the catch returns 500
without touching the session, so a failure leaves status at
`analyzing_technical` and writes no result. -/
def technicalAnalysisRoute (s : Session) (gw : Except GErr String) : RouteOut :=
  if s.results.transcription.isNone || s.results.cvAnalysis.isNone then
    ⟨.failure 400 ("Previous analysis steps not completed") [] [], s, 0⟩
  else
    let s1 : Session := { s with status := "analyzing_technical" }
    match gw with
    | Except.ok t =>
      ⟨.success t,
        { s1 with results := { s1.results with technicalAnalysis := some t },
                  status := "technical_analyzed" }, 1⟩
    | Except.error _ =>
      ⟨.failure 500 ("Failed to perform technical analysis") [] [], s1, 1⟩

/-- `POST /api/communication-analysis/:sessionId` (lines 1011-1108).  Same
shape as the technical stage with prerequisite `transcription` only and
statuses `analyzing_communication` / `communication_analyzed`; its catch
likewise leaves the session status untouched. -/
def communicationAnalysisRoute (s : Session) (gw : Except GErr String) : RouteOut :=
  if s.results.transcription.isNone then
    ⟨.failure 400 ("Transcription not available") [] [], s, 0⟩
  else
    let s1 : Session := { s with status := "analyzing_communication" }
    match gw with
    | Except.ok t =>
      ⟨.success t,
        { s1 with results := { s1.results with communicationAnalysis := some t },
                  status := "communication_analyzed" }, 1⟩
    | Except.error _ =>
      ⟨.failure 500 ("Failed to perform communication analysis") [] [], s1, 1⟩

/-- The required-analyses list of the final-report handler (line 1120). -/
def requiredAnalyses : List String :=
  ["cvAnalysis", "transcription", "technicalAnalysis", "communicationAnalysis"]

/-- Lookup of `session.results[name]` by the JavaScript property name. -/
def Results.byName (r : Results) : String → Option String
  | "cvAnalysis" => r.cvAnalysis
  | "transcription" => r.transcription
  | "faceAnalysis" => r.faceAnalysis
  | "technicalAnalysis" => r.technicalAnalysis
  | "communicationAnalysis" => r.communicationAnalysis
  | "finalReport" => r.finalReport
  | _ => none

/-- `POST /api/final-report/:sessionId` (lines 1111-1239).  The handler
computes the missing required analyses and rejects with them listed when
any is absent; otherwise status becomes `generating_final_report`, the
gateway is called, and success stores the report under status `completed`.
Its catch also leaves the session status untouched on failure. -/
def finalReportRoute (s : Session) (gw : Except GErr String) : RouteOut :=
  let missing := requiredAnalyses.filter (fun name => (s.results.byName name).isNone)
  if missing.isEmpty then
    let s1 : Session := { s with status := "generating_final_report" }
    match gw with
    | Except.ok t =>
      ⟨.success t,
        { s1 with results := { s1.results with finalReport := some t },
                  status := "completed" }, 1⟩
    | Except.error _ =>
      ⟨.failure 500 ("Failed to generate final report") [] [], s1, 1⟩
  else
    ⟨.failure 400 ("Incomplete analysis") [] missing, s, 0⟩

/-- `POST /api/retry/:sessionId/:step` (lines 1328-1383).  Each recognized
step resets `session.status` to the predecessor completed state, deletes
the step's stored result, and re-invokes the step's primary handler via a
307 redirect (modeled as a direct invocation).  Unrecognized steps answer
400 listing the valid steps and change nothing. -/
def retryRoute (s : Session) (step : String) (gw : Except GErr String) : RouteOut :=
  if step = "cv_analysis" then
    analyzeCv
      { s with status := "initialized",
               results := { s.results with cvAnalysis := none } } gw
  else if step = "transcription" then
    transcribeMedia
      { s with status := "cv_analyzed",
               results := { s.results with transcription := none } } gw
  else if step = "face_analysis" then
    faceAnalysisRoute
      { s with status := s.mediaType.str ++ "_transcribed",
               results := { s.results with faceAnalysis := none } } gw
  else if step = "technical_analysis" then
    technicalAnalysisRoute
      { s with status := if s.results.faceAnalysis.isSome then "face_analyzed"
                         else s.mediaType.str ++ "_transcribed",
               results := { s.results with technicalAnalysis := none } } gw
  else if step = "communication_analysis" then
    communicationAnalysisRoute
      { s with status := "technical_analyzed",
               results := { s.results with communicationAnalysis := none } } gw
  else if step = "final_report" then
    finalReportRoute
      { s with status := "communication_analyzed",
               results := { s.results with finalReport := none } } gw
  else
    ⟨.failure 400 ("Invalid step")
      ["cv_analysis", "transcription", "face_analysis", "technical_analysis",
       "communication_analysis", "final_report"] [], s, 0⟩

/-- Session states reachable through the public API: a session created by
`/api/initialize` followed by any interleaving of stage, fallback and
retry requests with arbitrary gateway outcomes. -/
inductive Reachable : Session → Prop where
  | init (audioFile videoFile cvFile : Option FileRef) (jobDescription : String)
      (s : Session)
      (h : (initializeRoute audioFile videoFile cvFile jobDescription).session = some s) :
      Reachable s
  | stepCv {s : Session} (gw : Except GErr String) :
      Reachable s → Reachable ((analyzeCv s gw).session)
  | stepTranscribe {s : Session} (gw : Except GErr String) :
      Reachable s → Reachable ((transcribeMedia s gw).session)
  | stepFace {s : Session} (gw : Except GErr String) :
      Reachable s → Reachable ((faceAnalysisRoute s gw).session)
  | stepFallback {s : Session} (step : String) :
      Reachable s → Reachable ((forceFallbackRoute s step).session)
  | stepTech {s : Session} (gw : Except GErr String) :
      Reachable s → Reachable ((technicalAnalysisRoute s gw).session)
  | stepComm {s : Session} (gw : Except GErr String) :
      Reachable s → Reachable ((communicationAnalysisRoute s gw).session)
  | stepFinal {s : Session} (gw : Except GErr String) :
      Reachable s → Reachable ((finalReportRoute s gw).session)
  | stepRetry {s : Session} (step : String) (gw : Except GErr String) :
      Reachable s → Reachable ((retryRoute s step gw).session)

/-! ### Gateway retry-loop lemmas -/

/-- When every attempt fails with the same error pair classified as a
generic retryable failure, the loop waits `5000 * attempt` after each
non-final attempt and ends with `FAILED_AFTER_RETRIES`. -/
theorem runGateway_genericFail (env : Nat → ApiOutcome) (oversize : Bool)
    (c : Option Nat) (m : String) (net : Nat)
    (hconst : ∀ i, attemptRun env oversize i = (Except.error (c, m), net))
    (hover : ((c == some 503) || strIncludes m ("overloaded")) = false)
    (h429 : (c == some 429) = false)
    (h400 : (c == some 400) = false) :
    ∀ fuel retries attempt, attempt ≤ retries → retries - attempt < fuel →
      runGateway env oversize retries attempt fuel =
        ⟨.err (.failedAfterRetries m), net * (retries - attempt) + net,
          (List.range' attempt (retries - attempt)).map (fun a => 5000 * a)⟩ := by
  intro fuel
  induction fuel with
  | zero => intro retries attempt h1 h2; omega
  | succ fuel ih =>
    intro retries attempt h1 h2
    obtain ⟨d, rfl⟩ : ∃ d, retries = attempt + d := ⟨retries - attempt, by omega⟩
    simp only [runGateway]
    rw [if_neg (by omega), hconst attempt]
    simp only [hover, h429, h400, Bool.false_eq_true, if_false]
    cases d with
    | zero => simp
    | succ d =>
      have hne : (attempt == attempt + (d + 1)) = false := by
        simp [Nat.ne_of_lt (by omega : attempt < attempt + (d + 1))]
      simp only [hne, Bool.false_eq_true, if_false]
      rw [ih (attempt + (d + 1)) (attempt + 1) (by omega) (by omega)]
      have e1 : attempt + (d + 1) - (attempt + 1) = d := by omega
      have e2 : attempt + (d + 1) - attempt = d + 1 := by omega
      simp only [e1, e2, List.range'_succ, List.map_cons]
      refine congrArg₂ (GatewayTrace.mk (.err (.failedAfterRetries m))) (by ring) rfl

/-- When every attempt fails with the same error pair classified as
overloaded (`code === 503` or a message containing `overloaded`), the loop
waits per the fixed escalating schedule `[30000, 120000, 300000]` indexed
by attempt number and ends with `OVERLOADED`. -/
theorem runGateway_overloadAll (env : Nat → ApiOutcome) (oversize : Bool)
    (c : Option Nat) (m : String) (net : Nat)
    (hconst : ∀ i, attemptRun env oversize i = (Except.error (c, m), net))
    (hover : ((c == some 503) || strIncludes m ("overloaded")) = true) :
    ∀ fuel retries attempt, attempt ≤ retries → retries - attempt < fuel →
      runGateway env oversize retries attempt fuel =
        ⟨.err .overloaded, net * (retries - attempt) + net,
          (List.range' attempt (retries - attempt)).map
            (fun a => overloadedWaitTimes.getD (a - 1) 300000)⟩ := by
  intro fuel
  induction fuel with
  | zero => intro retries attempt h1 h2; omega
  | succ fuel ih =>
    intro retries attempt h1 h2
    obtain ⟨d, rfl⟩ : ∃ d, retries = attempt + d := ⟨retries - attempt, by omega⟩
    simp only [runGateway]
    rw [if_neg (by omega), hconst attempt]
    simp only [hover, if_true]
    cases d with
    | zero => simp
    | succ d =>
      rw [if_pos (by omega : attempt < attempt + (d + 1))]
      rw [ih (attempt + (d + 1)) (attempt + 1) (by omega) (by omega)]
      have e1 : attempt + (d + 1) - (attempt + 1) = d := by omega
      have e2 : attempt + (d + 1) - attempt = d + 1 := by omega
      simp only [e1, e2, List.range'_succ, List.map_cons]
      refine congrArg₂ (GatewayTrace.mk (.err .overloaded)) (by ring) rfl

/-- When every attempt fails with the same error pair classified as rate
limited (`code === 429`, message not signalling overload), the loop waits
`30000 * attempt` after each non-final attempt and ends with
`RATE_LIMITED`. -/
theorem runGateway_rateLimitedAll (env : Nat → ApiOutcome) (oversize : Bool)
    (c : Option Nat) (m : String) (net : Nat)
    (hconst : ∀ i, attemptRun env oversize i = (Except.error (c, m), net))
    (hover : ((c == some 503) || strIncludes m ("overloaded")) = false)
    (h429 : (c == some 429) = true) :
    ∀ fuel retries attempt, attempt ≤ retries → retries - attempt < fuel →
      runGateway env oversize retries attempt fuel =
        ⟨.err .rateLimited, net * (retries - attempt) + net,
          (List.range' attempt (retries - attempt)).map (fun a => 30000 * a)⟩ := by
  intro fuel
  induction fuel with
  | zero => intro retries attempt h1 h2; omega
  | succ fuel ih =>
    intro retries attempt h1 h2
    obtain ⟨d, rfl⟩ : ∃ d, retries = attempt + d := ⟨retries - attempt, by omega⟩
    simp only [runGateway]
    rw [if_neg (by omega), hconst attempt]
    simp only [hover, h429, Bool.false_eq_true, if_false, if_true]
    cases d with
    | zero => simp
    | succ d =>
      rw [if_pos (by omega : attempt < attempt + (d + 1))]
      rw [ih (attempt + (d + 1)) (attempt + 1) (by omega) (by omega)]
      have e1 : attempt + (d + 1) - (attempt + 1) = d := by omega
      have e2 : attempt + (d + 1) - attempt = d + 1 := by omega
      simp only [e1, e2, List.range'_succ, List.map_cons]
      refine congrArg₂ (GatewayTrace.mk (.err .rateLimited)) (by ring) rfl

/-- With a positive attempt budget the retry loop never falls through:
`callGeminiAPI` either returns text or throws one of the four `GErr`s. -/
theorem runGateway_ne_noResult (env : Nat → ApiOutcome) (oversize : Bool) :
    ∀ fuel retries attempt, attempt ≤ retries → retries - attempt < fuel →
      (runGateway env oversize retries attempt fuel).result ≠ .noResult := by
  intro fuel
  induction fuel with
  | zero => intro retries attempt h1 h2; omega
  | succ fuel ih =>
    intro retries attempt h1 h2
    simp only [runGateway]
    rw [if_neg (by omega)]
    rcases hat : attemptRun env oversize attempt with ⟨res, net⟩
    rcases res with p | t
    · rcases p with ⟨code, msg⟩
      simp only
      split
      · split
        · exact ih retries (attempt + 1) (by omega) (by omega)
        · simp
      · split
        · split
          · exact ih retries (attempt + 1) (by omega) (by omega)
          · simp
        · split
          · simp
          · split
            · simp
            · rename_i hne
              have hlt : attempt ≠ retries := by simpa using hne
              exact ih retries (attempt + 1) (by omega) (by omega)
    · simp

/-- With a positive attempt budget `callGeminiAPI` never returns the
fall-through `noResult`; this justifies modeling the stage handlers over
`Except GErr String` gateway outcomes. -/
theorem callGeminiAPI_total (env : Nat → ApiOutcome) (fileData : Option Nat)
    (retries : Nat) (hr : 1 ≤ retries) :
    (callGeminiAPI env fileData retries).result ≠ .noResult := by
  simp only [callGeminiAPI]
  exact runGateway_ne_noResult env _ retries retries 1 hr (by omega)

/-! ### Claim C2 -/

/-- Environment for the C2 instances; never consulted, since the oversize
check precedes every network call. -/
def c2_env : Nat → ApiOutcome := fun _ => .success ("unused")

/-- C2 counterexample: invoking the gateway with a decoded attachment one
byte over 20 MB and a budget of 2 attempts performs zero network calls but
nonetheless waits a 5000 ms backoff, consumes both attempts, and ends with
`FAILED_AFTER_RETRIES` — not with a `PAYLOAD_TOO_LARGE` code (which does
not exist in the code) and not immediately. -/
theorem c2_counterexample :
    callGeminiAPI c2_env (some (20 * 1024 * 1024 + 1)) 2 =
      ⟨.err (.failedAfterRetries oversizeMsg), 0, [5000]⟩ ∧
    (callGeminiAPI c2_env (some (20 * 1024 * 1024 + 1)) 2).delays ≠ [] := by
  decide

/-- C2 (amended): a call with an attachment whose decoded payload exceeds
20 MB performs zero network attempts, but the size error is re-thrown on
every iteration of the retry loop: the call waits `5000 * k` after each
non-final attempt `k` and terminates with `FAILED_AFTER_RETRIES` carrying
the oversize message, not with an immediate dedicated error code. -/
theorem c2_oversized_attachment (env : Nat → ApiOutcome) (bytes retries : Nat)
    (hsize : 20 * 1024 * 1024 < bytes) (hr : 1 ≤ retries) :
    callGeminiAPI env (some bytes) retries =
      ⟨.err (.failedAfterRetries oversizeMsg), 0,
        (List.range' 1 (retries - 1)).map (fun a => 5000 * a)⟩ := by
  have hov : decide (bytes > 20 * 1024 * 1024) = true := by simpa using hsize
  have hconst : ∀ i, attemptRun env true i =
      (Except.error ((none : Option Nat), oversizeMsg), 0) := fun i => rfl
  have h := runGateway_genericFail env true none oversizeMsg 0 hconst
    (by decide) (by decide) (by decide) retries retries 1 hr (by omega)
  simp only [callGeminiAPI, hov]
  simpa using h

/-- C2 witness: the amended theorem at a 3-attempt budget and a payload one
byte over the threshold. -/
theorem c2_witness :
    20 * 1024 * 1024 < 20 * 1024 * 1024 + 1 ∧ 1 ≤ 3 ∧
    callGeminiAPI c2_env (some (20 * 1024 * 1024 + 1)) 3 =
      ⟨.err (.failedAfterRetries oversizeMsg), 0,
        (List.range' 1 (3 - 1)).map (fun a => 5000 * a)⟩ :=
  ⟨by omega, by omega,
    c2_oversized_attachment c2_env (20 * 1024 * 1024 + 1) 3 (by omega) (by omega)⟩

/-! ### Claim C5 -/

/-- C5: error classification in the retry loop selects both the backoff and
the terminal code.  Provider overload (code 503) waits on the escalating
fixed schedule and exhausts to `OVERLOADED`; rate limiting (code 429, not
message-flagged as overload) waits `30000 × attempt` and exhausts to
`RATE_LIMITED`; any other retryable failure waits the linearly increasing
`5000 × attempt` and exhausts to `FAILED_AFTER_RETRIES`. -/
theorem c5_gateway_backoff_classification
    (retries : Nat) (hr : 1 ≤ retries)
    (envOver envRate envOther : Nat → ApiOutcome)
    (mOver mRate mOther : String) (cOther : Option Nat)
    (hEnvOver : ∀ i, envOver i = .httpError (some 503) mOver)
    (hEnvRate : ∀ i, envRate i = .httpError (some 429) mRate)
    (hmRate : strIncludes mRate ("overloaded") = false)
    (hEnvOther : ∀ i, envOther i = .httpError cOther mOther)
    (hmOther : strIncludes mOther ("overloaded") = false)
    (hc503 : (cOther == some 503) = false)
    (hc429 : (cOther == some 429) = false)
    (hc400 : (cOther == some 400) = false) :
    callGeminiAPI envOver none retries =
      ⟨.err .overloaded, retries,
        (List.range' 1 (retries - 1)).map
          (fun a => overloadedWaitTimes.getD (a - 1) 300000)⟩ ∧
    callGeminiAPI envRate none retries =
      ⟨.err .rateLimited, retries,
        (List.range' 1 (retries - 1)).map (fun a => 30000 * a)⟩ ∧
    callGeminiAPI envOther none retries =
      ⟨.err (.failedAfterRetries mOther), retries,
        (List.range' 1 (retries - 1)).map (fun a => 5000 * a)⟩ := by
  refine ⟨?_, ?_, ?_⟩
  · have hconst : ∀ i, attemptRun envOver false i =
        (Except.error (some 503, mOver), 1) := by
      intro i; simp [attemptRun, hEnvOver i]
    have h := runGateway_overloadAll envOver false (some 503) mOver 1 hconst
      (by simp) retries retries 1 hr (by omega)
    simp only [callGeminiAPI]
    rw [h]
    simp only [GatewayTrace.mk.injEq, true_and, and_true]
    omega
  · have hconst : ∀ i, attemptRun envRate false i =
        (Except.error (some 429, mRate), 1) := by
      intro i; simp [attemptRun, hEnvRate i]
    have h := runGateway_rateLimitedAll envRate false (some 429) mRate 1 hconst
      (by simp [hmRate]) (by simp) retries retries 1 hr (by omega)
    simp only [callGeminiAPI]
    rw [h]
    simp only [GatewayTrace.mk.injEq, true_and, and_true]
    omega
  · have hconst : ∀ i, attemptRun envOther false i =
        (Except.error (cOther, mOther), 1) := by
      intro i; simp [attemptRun, hEnvOther i]
    have h := runGateway_genericFail envOther false cOther mOther 1 hconst
      (by simp [hmOther, hc503]) hc429 hc400 retries retries 1 hr (by omega)
    simp only [callGeminiAPI]
    rw [h]
    simp only [GatewayTrace.mk.injEq, true_and, and_true]
    omega

/-- Overload environment for the C5 witness. -/
def c5_env_over : Nat → ApiOutcome := fun _ => .httpError (some 503) ("capacity exceeded")

/-- Rate-limit environment for the C5 witness. -/
def c5_env_rate : Nat → ApiOutcome := fun _ => .httpError (some 429) ("quota hit")

/-- Generic-failure environment for the C5 witness. -/
def c5_env_other : Nat → ApiOutcome := fun _ => .httpError (some 500) ("internal")

/-- C5 witness: the three classifications evaluated at a 3-attempt budget. -/
theorem c5_witness :
    1 ≤ 3 ∧
    callGeminiAPI c5_env_over none 3 = ⟨.err .overloaded, 3, [30000, 120000]⟩ ∧
    callGeminiAPI c5_env_rate none 3 = ⟨.err .rateLimited, 3, [30000, 60000]⟩ ∧
    callGeminiAPI c5_env_other none 3 =
      ⟨.err (.failedAfterRetries ("internal")), 3, [5000, 10000]⟩ := by
  have h := c5_gateway_backoff_classification 3 (by omega)
    c5_env_over c5_env_rate c5_env_other
    ("capacity exceeded") ("quota hit") ("internal") (some 500)
    (fun i => rfl) (fun i => rfl) (by decide) (fun i => rfl) (by decide)
    (by decide) (by decide) (by decide)
  exact ⟨by omega, h.1.trans (by decide), h.2.1.trans (by decide), h.2.2.trans (by decide)⟩

/-! ### Claim C6 -/

/-- Environment for the C6 counterexample: the provider answers 400 with a
message that happens to contain the word `overloaded`. -/
def c6_env : Nat → ApiOutcome :=
  fun _ => .httpError (some 400) ("The model is overloaded. Please try again later.")

/-- C6 counterexample: a provider rejection with error code 400 whose
message contains `overloaded` is classified by the message check (which
runs before the 400 check), so with a 2-attempt budget the call retries —
two network attempts, a 30000 ms wait — and terminates with `OVERLOADED`,
not immediately with `INVALID_REQUEST`. -/
theorem c6_counterexample :
    callGeminiAPI c6_env none 2 = ⟨.err .overloaded, 2, [30000]⟩ ∧
    (callGeminiAPI c6_env none 2).networkCalls ≠ 1 := by
  decide

/-- C6 (amended): if the first attempt is rejected with error code 400 and
the error message does not contain the substring `overloaded`, the call
fails immediately with `INVALID_REQUEST` after exactly one network attempt
and no backoff wait, regardless of the attempt budget. -/
theorem c6_bad_request_no_retry (env : Nat → ApiOutcome) (m : String) (retries : Nat)
    (hr : 1 ≤ retries)
    (h1 : env 1 = .httpError (some 400) m)
    (hm : strIncludes m ("overloaded") = false) :
    callGeminiAPI env none retries = ⟨.err (.invalidRequest m), 1, []⟩ := by
  simp only [callGeminiAPI]
  obtain ⟨f, rfl⟩ : ∃ f, retries = f + 1 := ⟨retries - 1, by omega⟩
  simp only [runGateway]
  rw [if_neg (by omega)]
  have e1 : ((some 400 : Option Nat) == some 503) = false := by decide
  have e2 : ((some 400 : Option Nat) == some 429) = false := by decide
  have e3 : ((some 400 : Option Nat) == some 400) = true := by decide
  simp [attemptRun, h1, hm, e1, e2, e3]

/-- Environment for the C6 witness. -/
def c6_envW : Nat → ApiOutcome :=
  fun _ => .httpError (some 400) ("Invalid JSON payload received.")

/-- C6 witness: the amended theorem at a 3-attempt budget. -/
theorem c6_witness :
    1 ≤ 3 ∧
    callGeminiAPI c6_envW none 3 =
      ⟨.err (.invalidRequest ("Invalid JSON payload received.")), 1, []⟩ :=
  ⟨by omega,
    c6_bad_request_no_retry c6_envW ("Invalid JSON payload received.") 3
      (by omega) rfl (by decide)⟩

/-! ### Claim C8 -/

/-- C8: requesting technical analysis when `cvAnalysis` and `transcription`
are not both present fails with the precondition error and returns the
session exactly as it was — status and every `results` entry untouched —
with no gateway call. -/
theorem c8_technical_precondition (s : Session) (gw : Except GErr String)
    (h : s.results.cvAnalysis = none ∨ s.results.transcription = none) :
    technicalAnalysisRoute s gw =
      ⟨.failure 400 ("Previous analysis steps not completed") [] [], s, 0⟩ := by
  have hc : (s.results.transcription.isNone || s.results.cvAnalysis.isNone) = true := by
    rcases h with h | h <;> simp [h]
  simp [technicalAnalysisRoute, hc]

/-- Session for the C8 witness: freshly initialized, no results yet. -/
def c8_session : Session :=
  { audioFile := some ⟨"interview.mp3", 1048576⟩, videoFile := none,
    cvFile := ⟨"cv.pdf", 2048⟩, jobDescription := "Senior Backend Engineer",
    mediaType := .audio, status := "initialized", results := Results.empty }

/-- C8 witness: the precondition failure on a fresh session. -/
theorem c8_witness :
    (c8_session.results.cvAnalysis = none ∨ c8_session.results.transcription = none) ∧
    technicalAnalysisRoute c8_session (Except.error GErr.rateLimited) =
      ⟨.failure 400 ("Previous analysis steps not completed") [] [], c8_session, 0⟩ :=
  ⟨Or.inl rfl,
    c8_technical_precondition c8_session (Except.error GErr.rateLimited) (Or.inl rfl)⟩

/-! ### Claim C9 -/

/-- C9: a video file over the 10 MB cap is rejected with zero AI Gateway
invocations, both by `/api/initialize` (which also creates no session) and
by the transcription stage (which errors out before its gateway call). -/
theorem c9_oversized_video_no_gateway
    (audioFile : Option FileRef) (vf : FileRef) (cvFile : Option FileRef)
    (jobDescription : String) (s : Session) (gw : Except GErr String)
    (hsize : vf.size > 10 * 1024 * 1024)
    (hs_video : s.mediaType = .video) (hs_file : s.videoFile = some vf) :
    ((initializeRoute audioFile (some vf) cvFile jobDescription).gwCalls = 0 ∧
     (initializeRoute audioFile (some vf) cvFile jobDescription).session = none ∧
     (initializeRoute audioFile (some vf) cvFile jobDescription).response.isSuccess = false) ∧
    transcribeMedia s gw =
      ⟨.failure 400 (MediaType.video.str ++ " file too large for processing") [] [],
        { s with status := "error" }, 0⟩ := by
  constructor
  · cases cvFile with
    | none => exact ⟨rfl, rfl, rfl⟩
    | some cv =>
      simp only [initializeRoute]
      split
      · exact ⟨rfl, rfl, rfl⟩
      · simp [hsize, ApiResponse.isSuccess]
  · simp [transcribeMedia, Session.mediaFile, hs_file, hs_video, hsize]

/-- Oversized video file for the C9 witness. -/
def c9_vf : FileRef := ⟨"interview.mp4", 11 * 1024 * 1024⟩

/-- Session for the C9 witness: a video session holding the oversized file. -/
def c9_session : Session :=
  { audioFile := none, videoFile := some c9_vf,
    cvFile := ⟨"cv.pdf", 2048⟩, jobDescription := "Senior Backend Engineer",
    mediaType := .video, status := "initialized", results := Results.empty }

/-- C9 witness: the rejections evaluated on an 11 MB video. -/
theorem c9_witness :
    c9_vf.size > 10 * 1024 * 1024 ∧
    ((initializeRoute none (some c9_vf) (some ⟨"cv.pdf", 2048⟩) ("Senior Backend Engineer")).gwCalls = 0 ∧
     (initializeRoute none (some c9_vf) (some ⟨"cv.pdf", 2048⟩) ("Senior Backend Engineer")).session = none ∧
     (initializeRoute none (some c9_vf) (some ⟨"cv.pdf", 2048⟩) ("Senior Backend Engineer")).response.isSuccess = false) ∧
    transcribeMedia c9_session (Except.error GErr.overloaded) =
      ⟨.failure 400 (MediaType.video.str ++ " file too large for processing") [] [],
        { c9_session with status := "error" }, 0⟩ :=
  ⟨by decide,
    (c9_oversized_video_no_gateway none c9_vf (some ⟨"cv.pdf", 2048⟩)
      ("Senior Backend Engineer") c9_session (Except.error GErr.overloaded)
      (by decide) rfl rfl).1,
    (c9_oversized_video_no_gateway none c9_vf (some ⟨"cv.pdf", 2048⟩)
      ("Senior Backend Engineer") c9_session (Except.error GErr.overloaded)
      (by decide) rfl rfl).2⟩

/-! ### Claim C10 -/

/-- C10: the force-fallback endpoint recognizes exactly the steps
`cv_analysis`, `transcription` and `face_analysis`: every other step name
gets a 400 listing those available steps with the session returned
unchanged and no gateway call, while the three recognized steps never
produce that listing response. -/
theorem c10_force_fallback_steps (s : Session) (step : String)
    (h1 : step ≠ "cv_analysis") (h2 : step ≠ "transcription")
    (h3 : step ≠ "face_analysis") :
    forceFallbackRoute s step =
      ⟨.failure 400 ("Fallback not available for this step")
        ["cv_analysis", "transcription", "face_analysis"] [], s, 0⟩ ∧
    ∀ valid ∈ (["cv_analysis", "transcription", "face_analysis"] : List String),
      (forceFallbackRoute s valid).response ≠
        .failure 400 ("Fallback not available for this step")
          ["cv_analysis", "transcription", "face_analysis"] [] := by
  constructor
  · simp [forceFallbackRoute, h1, h2, h3]
  · intro valid hv
    fin_cases hv
    · simp [forceFallbackRoute]
    · simp only [forceFallbackRoute]
      cases hm : s.mediaFile <;> simp [hm]
    · simp only [forceFallbackRoute]
      by_cases hmt : s.mediaType = MediaType.video
      · cases hv2 : s.videoFile <;> simp [hmt, hv2]
      · simp [hmt]

/-- Session for the C10 witness. -/
def c10_session : Session :=
  { audioFile := some ⟨"interview.mp3", 1048576⟩, videoFile := none,
    cvFile := ⟨"cv.pdf", 2048⟩, jobDescription := "Senior Backend Engineer",
    mediaType := .audio, status := "audio_transcribed",
    results := { Results.empty with transcription := some ("T") } }

/-- C10 witness: `technical_analysis` is not force-fallbackable. -/
theorem c10_witness :
    ("technical_analysis" ≠ "cv_analysis") ∧
    forceFallbackRoute c10_session ("technical_analysis") =
      ⟨.failure 400 ("Fallback not available for this step")
        ["cv_analysis", "transcription", "face_analysis"] [], c10_session, 0⟩ :=
  ⟨by decide,
    (c10_force_fallback_steps c10_session ("technical_analysis")
      (by decide) (by decide) (by decide)).1⟩

/-! ### Claim C1 -/

/-- Freshly initialized audio session used to build the C1 counterexample. -/
def c1_base : Session :=
  { audioFile := some ⟨"interview.mp3", 1048576⟩, videoFile := none,
    cvFile := ⟨"cv.pdf", 2048⟩, jobDescription := "Senior Backend Engineer",
    mediaType := .audio, status := "initialized", results := Results.empty }

/-- The C1 counterexample session after a successful CV analysis. -/
def c1_afterCv : Session := (analyzeCv c1_base (Except.ok ("CV RESULT"))).session

/-- The C1 counterexample session after a successful transcription. -/
def c1_afterTr : Session := (transcribeMedia c1_afterCv (Except.ok ("TRANSCRIPT"))).session

/-- C1 counterexample: on a reachable session with both prerequisites,
a `RATE_LIMITED` gateway failure during technical analysis propagates (the
response is an error and no result is written) but the session's status is
left at `analyzing_technical`, not set to `error` as the claim requires. -/
theorem c1_counterexample :
    Reachable c1_afterTr ∧
    (technicalAnalysisRoute c1_afterTr (Except.error GErr.rateLimited)).response.isSuccess = false ∧
    (technicalAnalysisRoute c1_afterTr (Except.error GErr.rateLimited)).session.results.technicalAnalysis = none ∧
    (technicalAnalysisRoute c1_afterTr (Except.error GErr.rateLimited)).session.status = "analyzing_technical" ∧
    (technicalAnalysisRoute c1_afterTr (Except.error GErr.rateLimited)).session.status ≠ "error" := by
  refine ⟨?_, by decide, by decide, by decide, by decide⟩
  exact Reachable.stepTranscribe _
    (Reachable.stepCv _
      (Reachable.init (some ⟨"interview.mp3", 1048576⟩) none (some ⟨"cv.pdf", 2048⟩)
        ("Senior Backend Engineer") c1_base rfl))

/-- C1 (amended): a gateway failure whose message contains neither
`OVERLOADED` nor `503` propagates to the caller with no result written for
all six stages; the first three stages set `stageStatus` to `error`, but
the technical-analysis, communication-analysis and final-report handlers
leave it at the in-progress value. -/
theorem c1_error_propagation (s : Session) (e : GErr) (vf : FileRef)
    (hov : strIncludes e.message ("OVERLOADED") = false)
    (h503 : strIncludes e.message ("503") = false)
    (hvideo : s.mediaType = .video) (hvf : s.videoFile = some vf)
    (hsize : vf.size ≤ 8 * 1024 * 1024)
    (hcv : s.results.cvAnalysis.isSome) (htr : s.results.transcription.isSome)
    (hte : s.results.technicalAnalysis.isSome)
    (hco : s.results.communicationAnalysis.isSome) :
    (analyzeCv s (Except.error e) =
      ⟨.failure 500 ("Failed to analyze CV") [] [], { s with status := "error" }, 1⟩) ∧
    ((transcribeMedia s (Except.error e)).response.isSuccess = false ∧
     (transcribeMedia s (Except.error e)).session.status = "error" ∧
     (transcribeMedia s (Except.error e)).session.results = s.results) ∧
    ((faceAnalysisRoute s (Except.error e)).response.isSuccess = false ∧
     (faceAnalysisRoute s (Except.error e)).session.status = "error" ∧
     (faceAnalysisRoute s (Except.error e)).session.results = s.results) ∧
    (technicalAnalysisRoute s (Except.error e) =
      ⟨.failure 500 ("Failed to perform technical analysis") [] [],
        { s with status := "analyzing_technical" }, 1⟩) ∧
    (communicationAnalysisRoute s (Except.error e) =
      ⟨.failure 500 ("Failed to perform communication analysis") [] [],
        { s with status := "analyzing_communication" }, 1⟩) ∧
    (finalReportRoute s (Except.error e) =
      ⟨.failure 500 ("Failed to generate final report") [] [],
        { s with status := "generating_final_report" }, 1⟩) := by
  obtain ⟨cvv, hcve⟩ := Option.isSome_iff_exists.mp hcv
  obtain ⟨trv, htre⟩ := Option.isSome_iff_exists.mp htr
  obtain ⟨tev, htee⟩ := Option.isSome_iff_exists.mp hte
  obtain ⟨cov, hcoe⟩ := Option.isSome_iff_exists.mp hco
  have h10 : ¬ vf.size > 10 * 1024 * 1024 := by omega
  have h8 : ¬ vf.size > 8 * 1024 * 1024 := by omega
  refine ⟨?_, ?_, ?_, ?_, ?_, ?_⟩
  · simp [analyzeCv, hov, h503]
  · simp only [transcribeMedia, Session.mediaFile, hvf, hvideo, h10, h8, hov, h503]
    simp [h10, h8, hov, h503]
    split_ifs <;> simp_all [ApiResponse.isSuccess]
  · simp only [faceAnalysisRoute, hvf, hvideo]
    simp [h10, h8, hov, h503]
    split_ifs <;> simp_all [ApiResponse.isSuccess]
  · simp [technicalAnalysisRoute, hcve, htre]
  · simp [communicationAnalysisRoute, htre]
  · simp [finalReportRoute, requiredAnalyses, Results.byName, hcve, htre, htee, hcoe]

/-- Completed-through-communication video session for the C1 witness. -/
def c1_sessionW : Session :=
  { audioFile := none, videoFile := some ⟨"interview.mp4", 4 * 1024 * 1024⟩,
    cvFile := ⟨"cv.pdf", 2048⟩, jobDescription := "Senior Backend Engineer",
    mediaType := .video, status := "communication_analyzed",
    results := { cvAnalysis := some ("CV"), transcription := some ("T"),
                 faceAnalysis := some ("F"), technicalAnalysis := some ("TE"),
                 communicationAnalysis := some ("CO"), finalReport := none } }

/-- C1 witness: the amended propagation behavior at a concrete session and a
`RATE_LIMITED` failure. -/
theorem c1_witness :
    strIncludes (GErr.rateLimited.message) ("OVERLOADED") = false ∧
    technicalAnalysisRoute c1_sessionW (Except.error GErr.rateLimited) =
      ⟨.failure 500 ("Failed to perform technical analysis") [] [],
        { c1_sessionW with status := "analyzing_technical" }, 1⟩ ∧
    analyzeCv c1_sessionW (Except.error GErr.rateLimited) =
      ⟨.failure 500 ("Failed to analyze CV") [] [],
        { c1_sessionW with status := "error" }, 1⟩ := by
  have h := c1_error_propagation c1_sessionW GErr.rateLimited
    ⟨"interview.mp4", 4 * 1024 * 1024⟩ (by decide) (by decide) rfl rfl
    (by decide) (by decide) (by decide) (by decide) (by decide)
  exact ⟨by decide, h.2.2.2.1, h.1⟩

/-! ### Claim C3 -/

/-- The completed `stageStatus` values a stage's handlers can assign
(AI-produced and fallback variants), read off the status assignments in
the six stage handlers and the force-fallback handler. -/
def completedStatuses (k : StageKey) (mt : MediaType) : List String :=
  match k with
  | .cvAnalysis => ["cv_analyzed", "cv_analyzed_fallback"]
  | .transcription => [mt.str ++ "_transcribed", mt.str ++ "_transcribed_fallback"]
  | .faceAnalysis => ["face_analyzed", "face_analyzed_fallback"]
  | .technicalAnalysis => ["technical_analyzed"]
  | .communicationAnalysis => ["communication_analyzed"]
  | .finalReport => ["completed"]

/-- Freshly initialized audio session used to build the C3 counterexample. -/
def c3_base : Session :=
  { audioFile := some ⟨"interview.mp3", 1048576⟩, videoFile := none,
    cvFile := ⟨"cv.pdf", 2048⟩, jobDescription := "Senior Backend Engineer",
    mediaType := .audio, status := "initialized", results := Results.empty }

/-- The C3 counterexample session after a successful CV analysis. -/
def c3_afterCv : Session := (analyzeCv c3_base (Except.ok ("CV RESULT"))).session

/-- The C3 counterexample session after a successful transcription. -/
def c3_afterTr : Session := (transcribeMedia c3_afterCv (Except.ok ("TRANSCRIPT"))).session

/-- C3 counterexample: in the reachable state following CV analysis and
transcription, `results.cvAnalysis` is populated while `stageStatus` is
`audio_transcribed` — not one of cv_analysis's completed values — so the
claimed biconditional fails for the cv_analysis stage at this session. -/
theorem c3_counterexample :
    Reachable c3_afterTr ∧
    (c3_afterTr.results.get StageKey.cvAnalysis).isSome = true ∧
    c3_afterTr.status ∉ completedStatuses StageKey.cvAnalysis c3_afterTr.mediaType := by
  refine ⟨?_, by decide, by decide⟩
  exact Reachable.stepTranscribe _
    (Reachable.stepCv _
      (Reachable.init (some ⟨"interview.mp3", 1048576⟩) none (some ⟨"cv.pdf", 2048⟩)
        ("Senior Backend Engineer") c3_base rfl))

/-- C3 (amended): immediately after a stage handler (or force-fallback)
answers success, that stage's `results` entry is populated and
`stageStatus` is one of that stage's completed values; the biconditional
over all reachable states does not hold, since later stages move
`stageStatus` on while earlier results persist. -/
theorem c3_stage_success_populates (s : Session) (gw : Except GErr String) :
    ((analyzeCv s gw).response.isSuccess = true →
      ((analyzeCv s gw).session.results.get StageKey.cvAnalysis).isSome = true ∧
      (analyzeCv s gw).session.status ∈
        completedStatuses StageKey.cvAnalysis (analyzeCv s gw).session.mediaType) ∧
    ((transcribeMedia s gw).response.isSuccess = true →
      ((transcribeMedia s gw).session.results.get StageKey.transcription).isSome = true ∧
      (transcribeMedia s gw).session.status ∈
        completedStatuses StageKey.transcription (transcribeMedia s gw).session.mediaType) ∧
    ((faceAnalysisRoute s gw).response.isSuccess = true →
      ((faceAnalysisRoute s gw).session.results.get StageKey.faceAnalysis).isSome = true ∧
      (faceAnalysisRoute s gw).session.status ∈
        completedStatuses StageKey.faceAnalysis (faceAnalysisRoute s gw).session.mediaType) ∧
    ((technicalAnalysisRoute s gw).response.isSuccess = true →
      ((technicalAnalysisRoute s gw).session.results.get StageKey.technicalAnalysis).isSome = true ∧
      (technicalAnalysisRoute s gw).session.status ∈
        completedStatuses StageKey.technicalAnalysis (technicalAnalysisRoute s gw).session.mediaType) ∧
    ((communicationAnalysisRoute s gw).response.isSuccess = true →
      ((communicationAnalysisRoute s gw).session.results.get StageKey.communicationAnalysis).isSome = true ∧
      (communicationAnalysisRoute s gw).session.status ∈
        completedStatuses StageKey.communicationAnalysis (communicationAnalysisRoute s gw).session.mediaType) ∧
    ((finalReportRoute s gw).response.isSuccess = true →
      ((finalReportRoute s gw).session.results.get StageKey.finalReport).isSome = true ∧
      (finalReportRoute s gw).session.status ∈
        completedStatuses StageKey.finalReport (finalReportRoute s gw).session.mediaType) ∧
    ((forceFallbackRoute s ("cv_analysis")).response.isSuccess = true →
      ((forceFallbackRoute s ("cv_analysis")).session.results.get StageKey.cvAnalysis).isSome = true ∧
      (forceFallbackRoute s ("cv_analysis")).session.status ∈
        completedStatuses StageKey.cvAnalysis (forceFallbackRoute s ("cv_analysis")).session.mediaType) ∧
    ((forceFallbackRoute s ("transcription")).response.isSuccess = true →
      ((forceFallbackRoute s ("transcription")).session.results.get StageKey.transcription).isSome = true ∧
      (forceFallbackRoute s ("transcription")).session.status ∈
        completedStatuses StageKey.transcription (forceFallbackRoute s ("transcription")).session.mediaType) ∧
    ((forceFallbackRoute s ("face_analysis")).response.isSuccess = true →
      ((forceFallbackRoute s ("face_analysis")).session.results.get StageKey.faceAnalysis).isSome = true ∧
      (forceFallbackRoute s ("face_analysis")).session.status ∈
        completedStatuses StageKey.faceAnalysis (forceFallbackRoute s ("face_analysis")).session.mediaType) := by
  refine ⟨?_, ?_, ?_, ?_, ?_, ?_, ?_, ?_, ?_⟩
  · cases gw <;>
      simp [analyzeCv, Results.get, completedStatuses, ApiResponse.isSuccess] <;>
      split_ifs <;> simp [Results.get, completedStatuses, ApiResponse.isSuccess]
  · simp only [transcribeMedia]
    cases hm : s.mediaFile <;> simp only [hm]
    · simp [ApiResponse.isSuccess]
    · rcases gw with e | t <;>
        (repeat' split) <;>
        simp_all [Results.get, completedStatuses, ApiResponse.isSuccess]
  · simp only [faceAnalysisRoute]
    cases hv : s.videoFile <;> simp only [hv]
    · simp [ApiResponse.isSuccess]
    · rcases gw with e | t <;>
        (repeat' split) <;>
        simp_all [Results.get, completedStatuses, ApiResponse.isSuccess]
  · cases gw <;>
      simp [technicalAnalysisRoute, Results.get, completedStatuses, ApiResponse.isSuccess] <;>
      split_ifs <;> simp [Results.get, completedStatuses, ApiResponse.isSuccess]
  · cases gw <;>
      simp [communicationAnalysisRoute, Results.get, completedStatuses, ApiResponse.isSuccess] <;>
      split_ifs <;> simp [Results.get, completedStatuses, ApiResponse.isSuccess]
  · cases gw <;>
      simp [finalReportRoute, Results.get, completedStatuses, ApiResponse.isSuccess] <;>
      split_ifs <;> simp [Results.get, completedStatuses, ApiResponse.isSuccess]
  · simp [forceFallbackRoute, Results.get, completedStatuses]
  · simp only [forceFallbackRoute]
    cases hm : s.mediaFile <;>
      simp [hm, Results.get, completedStatuses, ApiResponse.isSuccess]
  · simp only [forceFallbackRoute]
    by_cases hmt : s.mediaType = MediaType.video
    · cases hv : s.videoFile <;>
        simp [hmt, hv, Results.get, completedStatuses, ApiResponse.isSuccess]
    · simp [hmt, ApiResponse.isSuccess]

/-- C3 witness: cv-analysis success on a fresh session populates the entry
and reaches a completed status. -/
theorem c3_witness :
    (analyzeCv c3_base (Except.ok ("X"))).response.isSuccess = true ∧
    ((analyzeCv c3_base (Except.ok ("X"))).session.results.get StageKey.cvAnalysis).isSome = true ∧
    (analyzeCv c3_base (Except.ok ("X"))).session.status ∈
      completedStatuses StageKey.cvAnalysis (analyzeCv c3_base (Except.ok ("X"))).session.mediaType := by
  have h := (c3_stage_success_populates c3_base (Except.ok ("X"))).1 (by decide)
  exact ⟨by decide, h.1, h.2⟩

/-! ### Claim C4 -/

/-- The `:step` route parameter naming each stage in the retry and
force-fallback endpoints. -/
def stageStepName : StageKey → String
  | .cvAnalysis => "cv_analysis"
  | .transcription => "transcription"
  | .faceAnalysis => "face_analysis"
  | .technicalAnalysis => "technical_analysis"
  | .communicationAnalysis => "communication_analysis"
  | .finalReport => "final_report"

/-- The primary handler of each stage. -/
def stagePrimaryOp : StageKey → Session → Except GErr String → RouteOut
  | .cvAnalysis => analyzeCv
  | .transcription => transcribeMedia
  | .faceAnalysis => faceAnalysisRoute
  | .technicalAnalysis => technicalAnalysisRoute
  | .communicationAnalysis => communicationAnalysisRoute
  | .finalReport => finalReportRoute

/-- The predecessor completed status each retry case assigns
(index.js lines 1340-1370). -/
def retryResetStatus (s : Session) : StageKey → String
  | .cvAnalysis => "initialized"
  | .transcription => "cv_analyzed"
  | .faceAnalysis => s.mediaType.str ++ "_transcribed"
  | .technicalAnalysis =>
      if s.results.faceAnalysis.isSome then "face_analyzed"
      else s.mediaType.str ++ "_transcribed"
  | .communicationAnalysis => "technical_analyzed"
  | .finalReport => "communication_analyzed"

/-- Reading a key other than the one just written is unchanged. -/
theorem Results.get_set_ne (r : Results) (k k' : StageKey) (v : Option String)
    (h : k' ≠ k) : (r.set k v).get k' = r.get k' := by
  cases k <;> cases k' <;> simp_all [Results.set, Results.get]

/-- Writing the same key twice keeps only the second write. -/
theorem Results.set_set (r : Results) (k : StageKey) (v w : Option String) :
    (r.set k v).set k w = r.set k w := by
  cases k <;> simp [Results.set]

/-- Writing a key leaves the other fields intact, stated for `faceAnalysis`. -/
theorem Results.set_faceAnalysis_other (r : Results) (k : StageKey) (v : Option String)
    (h : k ≠ StageKey.faceAnalysis) : (r.set k v).faceAnalysis = r.faceAnalysis := by
  cases k <;> simp_all [Results.set]

/-- The cv-analysis handler touches no `results` entry but `cvAnalysis`. -/
theorem analyzeCv_results_frame (s : Session) (gw : Except GErr String) (k : StageKey)
    (h : k ≠ StageKey.cvAnalysis) :
    ((analyzeCv s gw).session.results.get k) = s.results.get k := by
  rcases gw with e | t <;>
    (repeat' split) <;>
    cases k <;> simp_all [analyzeCv, Results.get] <;>
    (repeat' split) <;> simp_all [Results.get]

/-- The transcription handler touches no `results` entry but
`transcription`. -/
theorem transcribeMedia_results_frame (s : Session) (gw : Except GErr String) (k : StageKey)
    (h : k ≠ StageKey.transcription) :
    ((transcribeMedia s gw).session.results.get k) = s.results.get k := by
  simp only [transcribeMedia]
  cases hm : s.mediaFile with
  | none => rfl
  | some mf =>
    rcases gw with e | t <;>
      (repeat' split) <;>
      cases k <;> simp_all [Results.get]

/-- The face-analysis handler touches no `results` entry but
`faceAnalysis`. -/
theorem faceAnalysisRoute_results_frame (s : Session) (gw : Except GErr String) (k : StageKey)
    (h : k ≠ StageKey.faceAnalysis) :
    ((faceAnalysisRoute s gw).session.results.get k) = s.results.get k := by
  simp only [faceAnalysisRoute]
  cases hv : s.videoFile with
  | none => rfl
  | some vf =>
    rcases gw with e | t <;>
      (repeat' split) <;>
      cases k <;> simp_all [Results.get]

/-- The technical-analysis handler touches no `results` entry but
`technicalAnalysis`. -/
theorem technicalAnalysisRoute_results_frame (s : Session) (gw : Except GErr String)
    (k : StageKey) (h : k ≠ StageKey.technicalAnalysis) :
    ((technicalAnalysisRoute s gw).session.results.get k) = s.results.get k := by
  rcases gw with e | t <;>
    (repeat' split) <;>
    cases k <;> simp_all [technicalAnalysisRoute, Results.get] <;>
    (repeat' split) <;> simp_all [Results.get]

/-- The communication-analysis handler touches no `results` entry but
`communicationAnalysis`. -/
theorem communicationAnalysisRoute_results_frame (s : Session) (gw : Except GErr String)
    (k : StageKey) (h : k ≠ StageKey.communicationAnalysis) :
    ((communicationAnalysisRoute s gw).session.results.get k) = s.results.get k := by
  rcases gw with e | t <;>
    (repeat' split) <;>
    cases k <;> simp_all [communicationAnalysisRoute, Results.get] <;>
    (repeat' split) <;> simp_all [Results.get]

/-- The final-report handler touches no `results` entry but `finalReport`. -/
theorem finalReportRoute_results_frame (s : Session) (gw : Except GErr String)
    (k : StageKey) (h : k ≠ StageKey.finalReport) :
    ((finalReportRoute s gw).session.results.get k) = s.results.get k := by
  rcases gw with e | t <;>
    (repeat' split) <;>
    cases k <;> simp_all [finalReportRoute, Results.get] <;>
    (repeat' split) <;> simp_all [Results.get]

/-- Every stage's primary handler leaves the other stages' entries
unchanged. -/
theorem stagePrimaryOp_results_frame (k : StageKey) (s : Session)
    (gw : Except GErr String) (k' : StageKey) (h : k' ≠ k) :
    ((stagePrimaryOp k s gw).session.results.get k') = s.results.get k' := by
  cases k with
  | cvAnalysis => exact analyzeCv_results_frame s gw k' h
  | transcription => exact transcribeMedia_results_frame s gw k' h
  | faceAnalysis => exact faceAnalysisRoute_results_frame s gw k' h
  | technicalAnalysis => exact technicalAnalysisRoute_results_frame s gw k' h
  | communicationAnalysis => exact communicationAnalysisRoute_results_frame s gw k' h
  | finalReport => exact finalReportRoute_results_frame s gw k' h

/-- The retry endpoint decomposes as: reset the status to the predecessor
completed state, delete the stage's key, re-invoke the primary handler. -/
theorem retryRoute_decompose (s : Session) (gw : Except GErr String) (k : StageKey) :
    retryRoute s (stageStepName k) gw =
      stagePrimaryOp k
        { s with status := retryResetStatus s k, results := s.results.set k none } gw := by
  cases k <;>
    simp [retryRoute, stageStepName, stagePrimaryOp, retryResetStatus, Results.set]

/-- C4: for every stage, retry resets the status to the predecessor
completed state, clears that stage's key and re-invokes the primary
handler; every other stage's `results` entry is unchanged by the whole
retry; and the outcome is independent of whatever was previously stored
under the retried stage's key (re-running overwrites, never appends). -/
theorem c4_retry_semantics (s : Session) (gw : Except GErr String) (k : StageKey) :
    retryRoute s (stageStepName k) gw =
      stagePrimaryOp k
        { s with status := retryResetStatus s k, results := s.results.set k none } gw ∧
    (∀ k', k' ≠ k →
      ((retryRoute s (stageStepName k) gw).session.results.get k') = s.results.get k') ∧
    (∀ v : Option String,
      retryRoute { s with results := s.results.set k v } (stageStepName k) gw =
        retryRoute s (stageStepName k) gw) := by
  refine ⟨retryRoute_decompose s gw k, ?_, ?_⟩
  · intro k' hk
    rw [retryRoute_decompose s gw k]
    rw [stagePrimaryOp_results_frame k _ gw k' hk]
    exact Results.get_set_ne s.results k k' none hk
  · intro v
    rw [retryRoute_decompose s gw k, retryRoute_decompose _ gw k]
    have hset : (s.results.set k v).set k none = s.results.set k none :=
      Results.set_set s.results k v none
    have hstat : retryResetStatus { s with results := s.results.set k v } k =
        retryResetStatus s k := by
      cases k <;>
        simp [retryResetStatus, Results.set_faceAnalysis_other, Results.set]
    rw [hset, hstat]

/-- Session for the C4 witness, holding results for the first two stages. -/
def c4_session : Session :=
  { audioFile := some ⟨"interview.mp3", 1048576⟩, videoFile := none,
    cvFile := ⟨"cv.pdf", 2048⟩, jobDescription := "Senior Backend Engineer",
    mediaType := .audio, status := "audio_transcribed",
    results := { Results.empty with cvAnalysis := some ("CV"), transcription := some ("T") } }

/-- C4 witness: retrying transcription leaves the cv entry alone and
ignores the previously stored transcription. -/
theorem c4_witness :
    (StageKey.cvAnalysis ≠ StageKey.transcription) ∧
    ((retryRoute c4_session (stageStepName StageKey.transcription)
        (Except.ok ("NEW"))).session.results.get StageKey.cvAnalysis) =
      c4_session.results.get StageKey.cvAnalysis ∧
    retryRoute
        { c4_session with
          results := c4_session.results.set StageKey.transcription (some ("OLD")) }
        (stageStepName StageKey.transcription) (Except.ok ("NEW")) =
      retryRoute c4_session (stageStepName StageKey.transcription) (Except.ok ("NEW")) := by
  have h := c4_retry_semantics c4_session (Except.ok ("NEW")) StageKey.transcription
  exact ⟨by decide, h.2.1 StageKey.cvAnalysis (by decide), h.2.2 (some ("OLD"))⟩

/-! ### Claim C7 -/

/-- The up-front guard of the face-analysis handler: a session whose
`mediaType` is not video is rejected before any state change. -/
theorem faceAnalysisRoute_audio_reject (s : Session) (gw : Except GErr String)
    (h : s.mediaType ≠ MediaType.video) :
    faceAnalysisRoute s gw =
      ⟨.failure 400 ("Face analysis only available for video files") [] [], s, 0⟩ := by
  simp only [faceAnalysisRoute]
  cases hv : s.videoFile with
  | none => rfl
  | some vf => simp [h]

/-- The cv-analysis handler never changes `mediaType`. -/
theorem analyzeCv_mediaType (s : Session) (gw : Except GErr String) :
    (analyzeCv s gw).session.mediaType = s.mediaType := by
  rcases gw with e | t <;> simp only [analyzeCv] <;> (repeat' split) <;> rfl

/-- The transcription handler never changes `mediaType`. -/
theorem transcribeMedia_mediaType (s : Session) (gw : Except GErr String) :
    (transcribeMedia s gw).session.mediaType = s.mediaType := by
  simp only [transcribeMedia]
  cases hm : s.mediaFile with
  | none => rfl
  | some mf => rcases gw with e | t <;> (repeat' split) <;> rfl

/-- The face-analysis handler never changes `mediaType`. -/
theorem faceAnalysisRoute_mediaType (s : Session) (gw : Except GErr String) :
    (faceAnalysisRoute s gw).session.mediaType = s.mediaType := by
  simp only [faceAnalysisRoute]
  cases hv : s.videoFile with
  | none => rfl
  | some vf => rcases gw with e | t <;> (repeat' split) <;> rfl

/-- The technical-analysis handler never changes `mediaType`. -/
theorem technicalAnalysisRoute_mediaType (s : Session) (gw : Except GErr String) :
    (technicalAnalysisRoute s gw).session.mediaType = s.mediaType := by
  rcases gw with e | t <;> simp only [technicalAnalysisRoute] <;> (repeat' split) <;> rfl

/-- The communication-analysis handler never changes `mediaType`. -/
theorem communicationAnalysisRoute_mediaType (s : Session) (gw : Except GErr String) :
    (communicationAnalysisRoute s gw).session.mediaType = s.mediaType := by
  rcases gw with e | t <;> simp only [communicationAnalysisRoute] <;> (repeat' split) <;> rfl

/-- The final-report handler never changes `mediaType`. -/
theorem finalReportRoute_mediaType (s : Session) (gw : Except GErr String) :
    (finalReportRoute s gw).session.mediaType = s.mediaType := by
  rcases gw with e | t <;> simp only [finalReportRoute] <;> (repeat' split) <;> rfl

/-- The force-fallback handler never changes `mediaType`. -/
theorem forceFallbackRoute_mediaType (s : Session) (step : String) :
    (forceFallbackRoute s step).session.mediaType = s.mediaType := by
  simp only [forceFallbackRoute]
  (repeat' split) <;> rfl

/-- The retry handler never changes `mediaType`. -/
theorem retryRoute_mediaType (s : Session) (step : String) (gw : Except GErr String) :
    (retryRoute s step gw).session.mediaType = s.mediaType := by
  simp only [retryRoute]
  split_ifs <;>
    first
      | exact analyzeCv_mediaType _ _
      | exact transcribeMedia_mediaType _ _
      | exact faceAnalysisRoute_mediaType _ _
      | exact technicalAnalysisRoute_mediaType _ _
      | exact communicationAnalysisRoute_mediaType _ _
      | exact finalReportRoute_mediaType _ _
      | rfl

/-- On an audio session the force-fallback handler never writes
`faceAnalysis`. -/
theorem forceFallbackRoute_noface (s : Session) (step : String)
    (h : s.mediaType = MediaType.audio) :
    (forceFallbackRoute s step).session.results.faceAnalysis =
      s.results.faceAnalysis := by
  simp only [forceFallbackRoute]
  (repeat' split) <;> simp_all

/-- The cv-analysis handler leaves the `faceAnalysis` entry unchanged. -/
theorem analyzeCv_faceEntry (s : Session) (gw : Except GErr String) :
    (analyzeCv s gw).session.results.faceAnalysis = s.results.faceAnalysis :=
  analyzeCv_results_frame s gw StageKey.faceAnalysis (by decide)

/-- The transcription handler leaves the `faceAnalysis` entry unchanged. -/
theorem transcribeMedia_faceEntry (s : Session) (gw : Except GErr String) :
    (transcribeMedia s gw).session.results.faceAnalysis = s.results.faceAnalysis :=
  transcribeMedia_results_frame s gw StageKey.faceAnalysis (by decide)

/-- The technical-analysis handler leaves the `faceAnalysis` entry
unchanged. -/
theorem technicalAnalysisRoute_faceEntry (s : Session) (gw : Except GErr String) :
    (technicalAnalysisRoute s gw).session.results.faceAnalysis = s.results.faceAnalysis :=
  technicalAnalysisRoute_results_frame s gw StageKey.faceAnalysis (by decide)

/-- The communication-analysis handler leaves the `faceAnalysis` entry
unchanged. -/
theorem communicationAnalysisRoute_faceEntry (s : Session) (gw : Except GErr String) :
    (communicationAnalysisRoute s gw).session.results.faceAnalysis = s.results.faceAnalysis :=
  communicationAnalysisRoute_results_frame s gw StageKey.faceAnalysis (by decide)

/-- The final-report handler leaves the `faceAnalysis` entry unchanged. -/
theorem finalReportRoute_faceEntry (s : Session) (gw : Except GErr String) :
    (finalReportRoute s gw).session.results.faceAnalysis = s.results.faceAnalysis :=
  finalReportRoute_results_frame s gw StageKey.faceAnalysis (by decide)

/-- A non-video session passed to the face-analysis handler keeps an empty
`faceAnalysis` entry. -/
theorem faceAnalysisRoute_noface (s : Session) (gw : Except GErr String)
    (h : s.mediaType ≠ MediaType.video) (hn : s.results.faceAnalysis = none) :
    (faceAnalysisRoute s gw).session.results.faceAnalysis = none := by
  rw [faceAnalysisRoute_audio_reject s gw h]
  exact hn

/-- On an audio session with no stored face analysis, the retry handler
leaves `faceAnalysis` empty whatever the step. -/
theorem retryRoute_noface (s : Session) (step : String) (gw : Except GErr String)
    (h : s.mediaType = MediaType.audio) (hn : s.results.faceAnalysis = none) :
    (retryRoute s step gw).session.results.faceAnalysis = none := by
  simp only [retryRoute]
  split_ifs <;>
    first
      | (rw [analyzeCv_faceEntry]; simpa using hn)
      | (rw [transcribeMedia_faceEntry]; simpa using hn)
      | (exact faceAnalysisRoute_noface
          { s with status := s.mediaType.str ++ "_transcribed",
                   results := { s.results with faceAnalysis := none } }
          gw (by simp [h]) (by simp))
      | (rw [technicalAnalysisRoute_faceEntry]; simpa using hn)
      | (rw [communicationAnalysisRoute_faceEntry]; simpa using hn)
      | (rw [finalReportRoute_faceEntry]; simpa using hn)
      | simpa using hn

/-- Any session handed out by `/api/initialize` starts with empty results
and status `initialized`. -/
theorem initializeRoute_fresh (a v cv : Option FileRef) (jd : String) (s : Session)
    (hs : (initializeRoute a v cv jd).session = some s) :
    s.results = Results.empty ∧ s.status = "initialized" := by
  cases cv with
  | none => simp [initializeRoute] at hs
  | some c =>
    simp only [initializeRoute] at hs
    repeat' split at hs
    all_goals
      first
        | (subst hs; exact ⟨rfl, rfl⟩)
        | (simp only [Option.some.injEq] at hs; subst hs; exact ⟨rfl, rfl⟩)
        | simp at hs

/-- Invariant: every reachable audio session has no `faceAnalysis` entry. -/
theorem reachable_audio_noface {s : Session} (h : Reachable s) :
    s.mediaType = MediaType.audio → s.results.faceAnalysis = none := by
  induction h with
  | init a v cv jd s hs =>
    intro _
    rw [(initializeRoute_fresh a v cv jd s hs).1]
    rfl
  | stepCv gw hr ih =>
    intro hmt
    rw [analyzeCv_mediaType] at hmt
    rw [analyzeCv_faceEntry]; exact ih hmt
  | stepTranscribe gw hr ih =>
    intro hmt
    rw [transcribeMedia_mediaType] at hmt
    rw [transcribeMedia_faceEntry]; exact ih hmt
  | stepFace gw hr ih =>
    intro hmt
    rw [faceAnalysisRoute_mediaType] at hmt
    rw [faceAnalysisRoute_audio_reject _ gw (by simp [hmt])]
    exact ih hmt
  | stepFallback step hr ih =>
    intro hmt
    rw [forceFallbackRoute_mediaType] at hmt
    rw [forceFallbackRoute_noface _ step hmt]
    exact ih hmt
  | stepTech gw hr ih =>
    intro hmt
    rw [technicalAnalysisRoute_mediaType] at hmt
    rw [technicalAnalysisRoute_faceEntry]; exact ih hmt
  | stepComm gw hr ih =>
    intro hmt
    rw [communicationAnalysisRoute_mediaType] at hmt
    rw [communicationAnalysisRoute_faceEntry]; exact ih hmt
  | stepFinal gw hr ih =>
    intro hmt
    rw [finalReportRoute_mediaType] at hmt
    rw [finalReportRoute_faceEntry]; exact ih hmt
  | stepRetry step gw hr ih =>
    intro hmt
    rw [retryRoute_mediaType] at hmt
    exact retryRoute_noface _ step gw hmt (ih hmt)

/-- C7: on every reachable audio session, `results.faceAnalysis` is absent;
the face-analysis handler rejects the request, changing nothing and
calling the gateway zero times; the force-fallback face step likewise
rejects without touching state; and a retry of the face step never calls
the gateway, never succeeds, and still leaves `faceAnalysis` absent. -/
theorem c7_audio_never_face (s : Session) (h : Reachable s)
    (ha : s.mediaType = MediaType.audio) :
    s.results.faceAnalysis = none ∧
    (∀ gw, faceAnalysisRoute s gw =
      ⟨.failure 400 ("Face analysis only available for video files") [] [], s, 0⟩) ∧
    forceFallbackRoute s ("face_analysis") =
      ⟨.failure 400 ("Face analysis not available") [] [], s, 0⟩ ∧
    (∀ gw, (retryRoute s ("face_analysis") gw).response.isSuccess = false ∧
           (retryRoute s ("face_analysis") gw).gwCalls = 0 ∧
           (retryRoute s ("face_analysis") gw).session.results.faceAnalysis = none) := by
  refine ⟨reachable_audio_noface h ha, ?_, ?_, ?_⟩
  · intro gw
    exact faceAnalysisRoute_audio_reject s gw (by simp [ha])
  · simp [forceFallbackRoute, ha]
  · intro gw
    have hrej := faceAnalysisRoute_audio_reject
      { s with status := s.mediaType.str ++ "_transcribed",
               results := { s.results with faceAnalysis := none } }
      gw (by simp [ha])
    have hret : retryRoute s ("face_analysis") gw =
        faceAnalysisRoute
          { s with status := s.mediaType.str ++ "_transcribed",
                   results := { s.results with faceAnalysis := none } } gw := by
      simp [retryRoute]
    rw [hret, hrej]
    exact ⟨rfl, rfl, rfl⟩

/-- Audio session created through `/api/initialize` for the C7 witness. -/
def c7_session : Session :=
  { audioFile := some ⟨"interview.mp3", 1048576⟩, videoFile := none,
    cvFile := ⟨"cv.pdf", 2048⟩, jobDescription := "Senior Backend Engineer",
    mediaType := .audio, status := "initialized", results := Results.empty }

/-- C7 witness: the rejections and the empty `faceAnalysis` entry on a
concrete reachable audio session. -/
theorem c7_witness :
    c7_session.mediaType = MediaType.audio ∧
    c7_session.results.faceAnalysis = none ∧
    faceAnalysisRoute c7_session (Except.ok ("F")) =
      ⟨.failure 400 ("Face analysis only available for video files") [] [], c7_session, 0⟩ ∧
    forceFallbackRoute c7_session ("face_analysis") =
      ⟨.failure 400 ("Face analysis not available") [] [], c7_session, 0⟩ := by
  have hr : Reachable c7_session :=
    Reachable.init (some ⟨"interview.mp3", 1048576⟩) none (some ⟨"cv.pdf", 2048⟩)
      ("Senior Backend Engineer") c7_session rfl
  have h := c7_audio_never_face c7_session hr rfl
  exact ⟨rfl, h.1, h.2.1 (Except.ok ("F")), h.2.2.1⟩

end HireBot
